import Mathlib

/-!
# Verification of the inventory-management core

Shallow embedding of the two API handlers that form the core of the
repository:

* `src/pages/api/transfers/index.js` — the transfer engine (POST transfers);
* `src/pages/api/alerts/index.js` — the alert engine (GET/POST/DELETE alerts).

JavaScript numbers are modelled as `Option ℚ` (`none` = `NaN`): every number
reachable in these handlers is produced from integer-valued JSON data,
`parseInt`, and `+`/`-`/`*` on such values, so no rounding or infinities can
occur; `NaN` can occur (e.g. `parseInt` of a non-numeric string) and is
modelled explicitly.  Request-body fields are modelled as `Option JVal`
(`none` = absent/`undefined`), where `JVal` is a string or a (finite) number.
Stateful file I/O (`readJSONFile`/`writeJSONFile`) is modelled by explicit
state passing: each handler takes the current collections and returns the
response together with the new collections.
-/

/-- A JavaScript number: `none` models `NaN`, `some x` a finite number. -/
abbrev JNum := Option ℚ

/-- A JSON/JS request-body value: a (finite) number or a string. -/
inductive JVal where
  | num (x : ℚ)
  | str (s : String)
deriving Repr, DecidableEq

/-- JS truthiness of a possibly-absent body value: `undefined`, `0` and `""`
are falsy. -/
def jtruthy : Option JVal → Bool
  | none => false
  | some (.num x) => x != 0
  | some (.str s) => s != ""

/-- JS strict equality `===` on possibly-absent body values: values of
different types are never equal; `undefined === undefined` is `true`. -/
def jstrictEq : Option JVal → Option JVal → Bool
  | none, none => true
  | some (.num a), some (.num b) => a == b
  | some (.str a), some (.str b) => a == b
  | _, _ => false

/-- Numeric value of a digit list (most significant first). -/
def digitsToNat (ds : List Char) : ℕ :=
  ds.foldl (fun a c => 10 * a + (c.toNat - 48)) 0

/-!
The standard `+`/`-`/`*` on `ℚ` and `Int.ceil`/`Int.floor` are
`@[irreducible]`, so closed applications of the handlers could not be
evaluated inside the kernel (`decide`).  The embedding therefore performs
its exact rational arithmetic through the kernel-computable `mkRat` and
integer division; the theorems `qadd_eq`, `qsub_eq`, `qmul_eq`, `ceilQ_eq`
below identify these with the standard operations.
-/

/-- Exact addition on `ℚ` (definitionally `mkRat`; equals `+` by `qadd_eq`). -/
def qadd (a b : ℚ) : ℚ := mkRat (a.num * b.den + b.num * a.den) (a.den * b.den)

/-- Exact subtraction on `ℚ` (equals `-` by `qsub_eq`). -/
def qsub (a b : ℚ) : ℚ := mkRat (a.num * b.den - b.num * a.den) (a.den * b.den)

/-- Exact multiplication on `ℚ` (equals `*` by `qmul_eq`). -/
def qmul (a b : ℚ) : ℚ := mkRat (a.num * b.num) (a.den * b.den)

/-- Exact `Math.ceil` on a rational (equals `Int.ceil` by `ceilQ_eq`). -/
def ceilQ (x : ℚ) : ℤ := -(-x.num / (x.den : ℤ))

/-- JS `Number(s)` conversion of a string (`none` = `NaN`): surrounding
spaces ignored, empty/whitespace is `0`, otherwise an optionally signed
decimal numeral, possibly with a fractional part.  (Exponent and hex forms
are not modelled; no input used in this development has them.) -/
def jsNumberOfString (s : String) : JNum :=
  let cs := ((s.toList.dropWhile (· = ' ')).reverse.dropWhile (· = ' ')).reverse
  if cs = [] then some 0
  else
    let sgn : ℤ := if cs.head? = some '-' then -1 else 1
    let cs := if cs.head? = some '-' ∨ cs.head? = some '+' then cs.tail else cs
    let ip := cs.takeWhile Char.isDigit
    let rest := cs.dropWhile Char.isDigit
    match rest with
    | [] => if ip = [] then none else some ((sgn * digitsToNat ip : ℤ) : ℚ)
    | '.' :: fp =>
      if fp.all Char.isDigit ∧ (ip ≠ [] ∨ fp ≠ []) then
        -- sgn * (ip + fp / 10^|fp|), written as one exact fraction
        some (mkRat (sgn * (digitsToNat ip * 10 ^ fp.length + digitsToNat fp))
          (10 ^ fp.length))
      else none
    | _ => none

/-- JS `ToNumber` of a body value (used by relational operators such as
`quantity <= 0` when one side is a number). -/
def jsToNumber : JVal → JNum
  | .num x => some x
  | .str s => jsNumberOfString s

/-- Truncation toward zero (`Int.tdiv` of the reduced fraction): the value
of JS `parseInt` on a finite number whose decimal rendering uses no
exponent (all numbers in this development). -/
def truncQ (x : ℚ) : ℤ := x.num.tdiv x.den

/-- JS `parseInt` on a string (`none` = `NaN`): leading spaces skipped,
optional sign, then the maximal run of leading digits; `NaN` if there is
none.  (Leading-`0x` hex is not modelled; no input used here has it.) -/
def jsParseIntString (s : String) : Option ℤ :=
  let cs := s.toList.dropWhile (· = ' ')
  let sgn : ℤ := if cs.head? = some '-' then -1 else 1
  let cs := if cs.head? = some '-' ∨ cs.head? = some '+' then cs.tail else cs
  let ds := cs.takeWhile Char.isDigit
  if ds = [] then none else some (sgn * digitsToNat ds)

/-- JS `parseInt` applied to a possibly-absent body value
(`parseInt(undefined)` is `NaN`). -/
def jparseInt : Option JVal → Option ℤ
  | none => none
  | some (.num x) => some (truncQ x)
  | some (.str s) => jsParseIntString s

/-- JS `v <= 0` on a possibly-absent body value: `ToNumber` coercion, any
comparison involving `NaN` is `false`. -/
def jleZero : Option JVal → Bool
  | none => false
  | some v =>
    match jsToNumber v with
    | some x => decide (x ≤ 0)
    | none => false

/-- JS `<` on numbers: any comparison involving `NaN` is `false`. -/
def jlt : JNum → JNum → Bool
  | some a, some b => decide (a < b)
  | _, _ => false

/-- JS `+` on numbers (`NaN` absorbs). -/
def jadd : JNum → JNum → JNum
  | some a, some b => some (qadd a b)
  | _, _ => none

/-- JS `-` on numbers (`NaN` absorbs). -/
def jsub : JNum → JNum → JNum
  | some a, some b => some (qsub a b)
  | _, _ => none

/-- A parsed integer viewed as a JS number. -/
def onum (o : Option ℤ) : JNum := o.map (fun z => (z : ℚ))

/-- JS `x || d` for a number `x` (`0` and `NaN` are falsy). -/
def jnumOr (a : JNum) (d : ℚ) : ℚ :=
  match a with
  | some x => if x = 0 then d else x
  | none => d

/-- JS `s || null` for a string (`""` is falsy). -/
def jstrOrNull (s : String) : Option String :=
  if s = "" then none else some s

/-- JS `s || d` for a possibly-absent string. -/
def joStrOr (o : Option String) (d : String) : String :=
  match o with
  | some s => if s = "" then d else s
  | none => d

/-- JS `a === b` where the stored field and/or the `parseInt` result may be
`NaN` (`none`): `NaN` is strictly equal to nothing, itself included. -/
def oIntEq (a b : Option ℤ) : Bool :=
  match a, b with
  | some x, some y => x == y
  | _, _ => false

/-! ## Entities (§3 of the spec, shapes as stored in the JSON files) -/

structure Product where
  id : ℤ
  sku : String
  name : String
  category : String
  unitCost : ℚ
  reorderPoint : ℤ
deriving Repr, DecidableEq

structure Warehouse where
  id : ℤ
  name : String
  location : String
deriving Repr, DecidableEq

structure StockEntry where
  id : ℤ
  productId : ℤ
  warehouseId : ℤ
  /-- a JS number: the transfer handler can write `NaN` here (see
  `postTransfer`), so the field is `JNum`, not `ℤ` -/
  quantity : JNum
deriving Repr, DecidableEq

structure Transfer where
  id : ℤ
  productId : ℤ
  fromWarehouseId : ℤ
  toWarehouseId : ℤ
  /-- Value of `parseInt` of the requested quantity; `none` = `NaN` -/
  quantity : Option ℤ
  notes : String
  date : String
  status : String
deriving Repr, DecidableEq

structure AlertAck where
  /-- Value of `parseInt` of the acknowledged product id; `none` = `NaN` -/
  productId : Option ℤ
  acknowledged : Bool
  acknowledgedAt : String
  acknowledgedBy : String
deriving Repr, DecidableEq

/-- The five JSON collections the two handlers read and write. -/
structure State where
  products : List Product
  warehouses : List Warehouse
  stock : List StockEntry
  transfers : List Transfer
  alerts : List AlertAck
deriving Repr, DecidableEq

/-! ## Transfer engine: POST /api/transfers -/

/-- The POST body `{productId, fromWarehouseId, toWarehouseId, quantity, notes}`. -/
structure TransferReq where
  productId : Option JVal
  fromWarehouseId : Option JVal
  toWarehouseId : Option JVal
  quantity : Option JVal
  notes : Option String
deriving Repr, DecidableEq

/-- The possible responses of the POST transfers handler. -/
inductive PostTransferRes where
  /-- HTTP 400 `'Missing required fields'` -/
  | missingFields
  /-- HTTP 400 `'Source and destination warehouses must be different'` -/
  | sameWarehouse
  /-- HTTP 400 `'Quantity must be greater than 0'` -/
  | invalidQuantity
  /-- HTTP 404 `'Product not found'` -/
  | productNotFound
  /-- HTTP 404 `'Warehouse not found'` -/
  | warehouseNotFound
  /-- HTTP 400 `Insufficient stock in <name>. Available: <a>, Requested: <q>` -/
  | insufficientStock (warehouseName : String) (available : ℚ) (requested : Option JVal)
  /-- HTTP 201 with the created transfer -/
  | created (t : Transfer)
deriving Repr, DecidableEq

/-- HTTP status code of each POST transfers response. -/
def transferStatusCode : PostTransferRes → ℕ
  | .missingFields => 400
  | .sameWarehouse => 400
  | .invalidQuantity => 400
  | .productNotFound => 404
  | .warehouseNotFound => 404
  | .insufficientStock _ _ _ => 400
  | .created _ => 201

/-- The transfer just created, if the response is a 201. -/
def createdTransfer : PostTransferRes → Option Transfer
  | .created t => some t
  | _ => none

/-- In-place mutation of the object returned by `Array.prototype.find`:
replace the first entry satisfying `p` by its image under `f`. -/
def updateFirst {α : Type} (p : α → Bool) (f : α → α) : List α → List α
  | [] => []
  | e :: es => if p e then f e :: es else e :: updateFirst p f es

/-- JS `arr.length > 0 ? Math.max(...arr.map(x => x.id)) + 1 : 1`. -/
def nextId (ids : List ℤ) : ℤ :=
  match ids with
  | [] => 1
  | x :: xs => xs.foldl max x + 1

/-- The POST branch of `src/pages/api/transfers/index.js` (lines 47–148).
`now` is the value of `new Date().toISOString()`.  Returns the response and
the state left in the JSON files (unchanged on every error path). -/
def postTransfer (st : State) (req : TransferReq) (now : String) :
    PostTransferRes × State :=
  -- if (!productId || !fromWarehouseId || !toWarehouseId || !quantity)
  if !(jtruthy req.productId && jtruthy req.fromWarehouseId &&
       jtruthy req.toWarehouseId && jtruthy req.quantity) then
    (.missingFields, st)
  -- if (fromWarehouseId === toWarehouseId)  — strict equality on the raw body values
  else if jstrictEq req.fromWarehouseId req.toWarehouseId then
    (.sameWarehouse, st)
  -- if (quantity <= 0)
  else if jleZero req.quantity then
    (.invalidQuantity, st)
  else
    -- products.find(p => p.id === parseInt(productId)); a NaN parse matches nothing
    match jparseInt req.productId with
    | none => (.productNotFound, st)
    | some pid =>
      match st.products.find? (fun p => p.id == pid) with
      | none => (.productNotFound, st)
      | some _product =>
        match jparseInt req.fromWarehouseId, jparseInt req.toWarehouseId with
        | some fw, some tw =>
          match st.warehouses.find? (fun w => w.id == fw),
                st.warehouses.find? (fun w => w.id == tw) with
          | some fromWarehouse, some _toWarehouse =>
            -- stock.find(s => s.productId === parseInt(productId) && s.warehouseId === parseInt(fromWarehouseId))
            let qI := jparseInt req.quantity
            match st.stock.find? (fun s => s.productId == pid && s.warehouseId == fw) with
            | none =>
              -- !sourceStock: available reported as sourceStock?.quantity || 0
              (.insufficientStock fromWarehouse.name 0 req.quantity, st)
            | some sourceStock =>
              -- sourceStock.quantity < parseInt(quantity): false when either side is NaN
              if jlt sourceStock.quantity (onum qI) then
                (.insufficientStock fromWarehouse.name (jnumOr sourceStock.quantity 0)
                  req.quantity, st)
              else
                let newTransfer : Transfer :=
                  { id := nextId (st.transfers.map (·.id))
                    productId := pid
                    fromWarehouseId := fw
                    toWarehouseId := tw
                    quantity := qI
                    notes := (req.notes).getD ""   -- notes || ''
                    date := now
                    status := "completed" }
                -- sourceStock.quantity -= parseInt(quantity)  (mutation of the found entry)
                let stock1 :=
                  updateFirst (fun s => s.productId == pid && s.warehouseId == fw)
                    (fun s => { s with quantity := jsub s.quantity (onum qI) }) st.stock
                -- destStock lookup runs on the already-mutated array
                let stock2 :=
                  match stock1.find? (fun s => s.productId == pid && s.warehouseId == tw) with
                  | some _ =>
                    updateFirst (fun s => s.productId == pid && s.warehouseId == tw)
                      (fun s => { s with quantity := jadd s.quantity (onum qI) }) stock1
                  | none =>
                    stock1 ++ [{ id := nextId (stock1.map (·.id))
                                 productId := pid
                                 warehouseId := tw
                                 quantity := onum qI }]
                (.created newTransfer,
                 { st with stock := stock2, transfers := st.transfers ++ [newTransfer] })
          | _, _ => (.warehouseNotFound, st)
        | _, _ => (.warehouseNotFound, st)

/-! ## Alert engine: GET/POST/DELETE /api/alerts -/

/-- One row of the per-product warehouse breakdown. -/
structure BreakdownEntry where
  warehouseId : ℤ
  warehouseName : String
  warehouseLocation : String
  quantity : JNum
deriving Repr, DecidableEq

/-- One alert record as returned by GET alerts. -/
structure Alert where
  productId : ℤ
  productName : String
  productSku : String
  category : String
  unitCost : ℚ
  currentStock : JNum
  reorderPoint : ℤ
  status : String
  severity : String
  recommendedAction : String
  reorderQuantity : ℤ
  estimatedCost : ℚ
  warehouseBreakdown : List BreakdownEntry
  acknowledged : Bool
  acknowledgedAt : Option String
  acknowledgedBy : Option String
deriving Repr, DecidableEq

/-- Result of the classification block (status/severity/action/reorder
quantity local variables of the handler). -/
structure ClassResult where
  status : String
  severity : String
  recommendedAction : String
  reorderQuantity : ℤ
deriving Repr, DecidableEq

/-- The reduction `totalQuantity = productStock.reduce((sum, s) => sum + s.quantity, 0)`. -/
def jsumQuantities (l : List StockEntry) : JNum :=
  l.foldl (fun sum s => jadd sum s.quantity) (some 0)

/-- Total stock of a product over all stock entries, as the alert handler
computes it. -/
def totalOf (stock : List StockEntry) (pid : ℤ) : JNum :=
  jsumQuantities (stock.filter (fun s => s.productId == pid))

/-- The classification block of the GET alerts handler (lines 32–62):
`criticalThreshold = reorderPoint * 0.5`, `overstockThreshold = reorderPoint * 3`,
then the four-way `if`/`else if` chain.  A `NaN` total fails all three
comparisons and keeps the initial `adequate` values — except that the
handler's initial `recommendedAction` is `'No action needed'` and the final
`else` overwrites it with `'Stock levels healthy'`, so `adequate` always
carries the latter. -/
def classify (totalQuantity : JNum) (reorderPoint : ℤ) : ClassResult :=
  -- criticalThreshold = reorderPoint * 0.5 = reorderPoint / 2 (exact in floats)
  let criticalThreshold : ℚ := mkRat reorderPoint 2
  -- overstockThreshold = reorderPoint * 3
  let overstockThreshold : ℚ := ((reorderPoint * 3 : ℤ) : ℚ)
  match totalQuantity with
  | some total =>
    if total < criticalThreshold then
      ⟨"critical", "critical", "URGENT: Immediate reorder required",
        ceilQ (qsub ((reorderPoint * 2 : ℤ) : ℚ) total)⟩   -- ceil(reorderPoint*2 - total)
    else if total < (reorderPoint : ℚ) then
      ⟨"low", "high", "Reorder recommended",
        ceilQ (qsub (mkRat (reorderPoint * 3) 2) total)⟩   -- ceil(reorderPoint*1.5 - total)
    else if total > overstockThreshold then
      ⟨"overstocked", "medium", "Consider redistribution or promotion", 0⟩
    else
      ⟨"adequate", "low", "Stock levels healthy", 0⟩
  | none => ⟨"adequate", "low", "Stock levels healthy", 0⟩

/-- The body of `products.map(product => ...)` in the GET alerts handler
(lines 27–99): one alert record per product. -/
def mkAlert (st : State) (product : Product) : Alert :=
  let productStock := st.stock.filter (fun s => s.productId == product.id)
  let totalQuantity := jsumQuantities productStock
  let c := classify totalQuantity product.reorderPoint
  let warehouseBreakdown := productStock.map (fun s =>
    let warehouse := st.warehouses.find? (fun w => w.id == s.warehouseId)
    { warehouseId := s.warehouseId
      warehouseName := joStrOr (warehouse.map (·.name)) "Unknown"
      warehouseLocation := joStrOr (warehouse.map (·.location)) "Unknown"
      quantity := s.quantity : BreakdownEntry })
  let alertRecord := st.alerts.find? (fun a => oIntEq a.productId (some product.id))
  { productId := product.id
    productName := product.name
    productSku := product.sku
    category := product.category
    unitCost := product.unitCost
    currentStock := totalQuantity
    reorderPoint := product.reorderPoint
    status := c.status
    severity := c.severity
    recommendedAction := c.recommendedAction
    reorderQuantity := c.reorderQuantity
    estimatedCost := qmul ((c.reorderQuantity : ℤ) : ℚ) product.unitCost
    warehouseBreakdown := warehouseBreakdown
    acknowledged := (alertRecord.map (·.acknowledged)).getD false  -- ?.acknowledged || false
    acknowledgedAt :=
      match alertRecord with
      | some a => jstrOrNull a.acknowledgedAt   -- ?.acknowledgedAt || null
      | none => none
    acknowledgedBy :=
      match alertRecord with
      | some a => jstrOrNull a.acknowledgedBy   -- ?.acknowledgedBy || null
      | none => none }

/-- The lookup table `const severityOrder = { critical: 0, high: 1, medium: 2, low: 3 }`.
The handler only ever produces these four severity strings; the catch-all
arm is arbitrary and unreachable from `computeAlerts`. -/
def severityOrder (s : String) : ℤ :=
  if s == "critical" then 0
  else if s == "high" then 1
  else if s == "medium" then 2
  else 3

/-- The GET alerts handler (lines 18–105): map every product to its alert,
then `sort((a, b) => severityOrder[a.severity] - severityOrder[b.severity])`.
`Array.prototype.sort` is stable, modelled by a stable merge sort. -/
def computeAlerts (st : State) : List Alert :=
  (st.products.map (mkAlert st)).mergeSort
    (fun a b => severityOrder a.severity ≤ severityOrder b.severity)

/-- The POST alerts body `{productId, acknowledgedBy}`. -/
structure AckReq where
  productId : Option JVal
  acknowledgedBy : Option String
deriving Repr, DecidableEq

/-- Responses of the POST alerts handler. -/
inductive AckRes where
  /-- HTTP 400 `'Product ID is required'` -/
  | missingProductId
  /-- HTTP 200 `{message, alert}` -/
  | acknowledged (alert : AlertAck)
deriving Repr, DecidableEq

/-- The POST branch of the alerts handler (lines 110–143): acknowledge.
Upserts one acknowledgment record keyed by `parseInt(productId)`. -/
def postAlert (st : State) (req : AckReq) (now : String) : AckRes × State :=
  if !(jtruthy req.productId) then
    (.missingProductId, st)
  else
    let pidI := jparseInt req.productId
    let alertData : AlertAck :=
      { productId := pidI
        acknowledged := true
        acknowledgedAt := now
        acknowledgedBy := joStrOr req.acknowledgedBy "System" }  -- acknowledgedBy || 'System'
    -- findIndex(a => a.productId === parseInt(productId)); replace it, else push
    let alerts' :=
      match st.alerts.findIdx? (fun a => oIntEq a.productId pidI) with
      | some i => st.alerts.set i alertData
      | none => st.alerts ++ [alertData]
    (.acknowledged alertData, { st with alerts := alerts' })

/-- Responses of the DELETE alerts handler. -/
inductive DelRes where
  /-- HTTP 400 `'Product ID is required'` -/
  | missingProductId
  /-- HTTP 200 `{message}` -/
  | unacknowledged
deriving Repr, DecidableEq

/-- The DELETE branch of the alerts handler (lines 144–162): unacknowledge.
Removes every record whose `productId !== parseInt(productId)` fails. -/
def deleteAlert (st : State) (productId : Option JVal) : DelRes × State :=
  if !(jtruthy productId) then
    (.missingProductId, st)
  else
    let pidI := jparseInt productId
    (.unacknowledged,
     { st with alerts := st.alerts.filter (fun a => !(oIntEq a.productId pidI)) })

/-! ## Fixtures: small concrete collections used in concrete runs -/

/-- A product with reorder point 100 and unit cost 2. -/
def prodWidget : Product := ⟨1, "SKU1", "Widget", "Cat", 2, 100⟩

/-- Two warehouses, ids 1 and 2. -/
def twoWarehouses : List Warehouse := [⟨1, "A", "LocA"⟩, ⟨2, "B", "LocB"⟩]

/-- Stock of 40 units of product 1 in warehouse 1, nothing else. -/
def stWidget40 : State :=
  ⟨[prodWidget], twoWarehouses, [⟨1, 1, 1, some 40⟩], [], []⟩

/-- Stock of 40 units of product 1 in warehouse 2, nothing else. -/
def stWidget40W2 : State :=
  ⟨[prodWidget], twoWarehouses, [⟨1, 1, 2, some 40⟩], [], []⟩

/-- Stock of 150 units of product 1 in warehouse 1 (an `adequate` level for reorder
point 100). -/
def stWidget150 : State :=
  ⟨[prodWidget], twoWarehouses, [⟨1, 1, 1, some 150⟩], [], []⟩

/-- Transfer request: 10 units of product 1 from warehouse 1 to warehouse 2. -/
def reqTen : TransferReq :=
  ⟨some (.num 1), some (.num 1), some (.num 2), some (.num 10), none⟩

/-- Transfer request whose quantity is the non-numeric string `"abc"`. -/
def reqAbc : TransferReq :=
  ⟨some (.num 1), some (.num 1), some (.num 2), some (.str "abc"), none⟩

/-- Transfer request in which the source warehouse id arrives as the string
`"2"` and the destination as the number `2` — both denote warehouse 2. -/
def reqMixed : TransferReq :=
  ⟨some (.num 1), some (.str "2"), some (.num 2), some (.num 10), none⟩

/-- Transfer request with the non-integer quantity `2.5`. -/
def reqHalf : TransferReq :=
  ⟨some (.num 1), some (.num 1), some (.num 2), some (.num (mkRat 5 2)), none⟩

/-- Transfer request with the negative quantity `-3`. -/
def reqNeg : TransferReq :=
  ⟨some (.num 1), some (.num 1), some (.num 2), some (.num (-3)), none⟩

/-- The (productId, warehouseId) key of a stock entry; the spec requires at
most one entry per key. -/
def stockKey (s : StockEntry) : ℤ × ℤ := (s.productId, s.warehouseId)

/-! ## Claim theorems -/

/-- Evaluation helper: on a single-product state the severity sort is the
identity (`mergeSort` is defined by well-founded recursion, so closed
evaluations reduce it through this lemma). -/
theorem computeAlerts_singleton (st : State) (p : Product)
    (h : st.products = [p]) : computeAlerts st = [mkAlert st p] := by
  unfold computeAlerts
  rw [h, List.map_cons, List.map_nil, List.mergeSort_singleton]

/-- C1 (code bug).  The claim says every POST transfers request that
returns 201 leaves the product's total stock unchanged.  The code does not:
a truthy quantity string whose numeric coercion is `NaN` (here `"abc"`)
passes every validation (`"abc" <= 0` and `sourceStock.quantity <
parseInt("abc")` are both `false` because `NaN` comparisons are `false`),
so the handler answers 201 while `sourceStock.quantity -= NaN` turns the
source entry — and the freshly created destination entry — into `NaN`: the
total for product 1 goes from `40` to `NaN`. -/
theorem transfer_nan_quantity_breaks_conservation :
    transferStatusCode (postTransfer stWidget40 reqAbc "2026-01-01T00:00:00.000Z").1 = 201 ∧
    totalOf stWidget40.stock 1 = some 40 ∧
    totalOf (postTransfer stWidget40 reqAbc "2026-01-01T00:00:00.000Z").2.stock 1 = none := by
  decide

/-- C2 (code bug).  The claim says a successful transfer leaves the
source entry at its previous quantity minus the transferred quantity.  When
the two warehouse ids arrive in different encodings (string `"2"` vs number
`2`), the strict-equality guard `fromWarehouseId === toWarehouseId` does not
fire, both parse to warehouse 2, and the single entry is decremented and
then re-incremented: the handler answers 201 for a transfer of 10 yet the
source entry still holds 40, not 30. -/
theorem transfer_mixed_encoding_source_not_decremented :
    transferStatusCode (postTransfer stWidget40W2 reqMixed "d").1 = 201 ∧
    (createdTransfer (postTransfer stWidget40W2 reqMixed "d").1).map (·.quantity)
      = some (some 10) ∧
    stWidget40W2.stock = [⟨1, 1, 2, some 40⟩] ∧
    (postTransfer stWidget40W2 reqMixed "d").2.stock = [⟨1, 1, 2, some 40⟩] := by
  decide

/-- C7 (code bug).  The claim says every Transfer record produced by a
successful POST has `fromWarehouseId ≠ toWarehouseId` for all accepted input
encodings.  With the source id as string `"2"` and the destination as
number `2` the strict-equality validation passes, and the stored record has
`fromWarehouseId = toWarehouseId = 2`. -/
theorem transfer_mixed_encoding_same_warehouse_record :
    transferStatusCode (postTransfer stWidget40W2 reqMixed "d").1 = 201 ∧
    (createdTransfer (postTransfer stWidget40W2 reqMixed "d").1).map
        (fun t => (t.fromWarehouseId, t.toWarehouseId)) = some (2, 2) := by
  decide

/-- C5 (counterexample).  The claim says a present quantity that is not
a positive integer — e.g. `2.5` — yields the invalid-quantity 400 and no
Transfer.  In fact `2.5` passes `quantity <= 0`, is truncated by
`parseInt` to 2, and the request succeeds with 201, appending a Transfer. -/
theorem noninteger_quantity_accepted :
    transferStatusCode (postTransfer stWidget40 reqHalf "d").1 = 201 ∧
    (createdTransfer (postTransfer stWidget40 reqHalf "d").1).map (·.quantity)
      = some (some 2) ∧
    (postTransfer stWidget40 reqHalf "d").2.transfers.length = 1 := by
  decide

/-- C6 (counterexample).  The claim says `fromWarehouseId ==
toWarehouseId` always yields the same-warehouse error regardless of other
fields, including a zero quantity.  The missing-fields check runs first and
`0` is falsy, so this request fails with `missingFields`, not
`sameWarehouse`. -/
theorem same_warehouse_zero_quantity_gives_missing_fields :
    postTransfer stWidget40
        ⟨some (.num 1), some (.num 2), some (.num 2), some (.num 0), none⟩ "d"
      = (.missingFields, stWidget40) ∧
    PostTransferRes.missingFields ≠ PostTransferRes.sameWarehouse := by
  decide

/-- C9 (counterexample).  The claim says the critical-tier action
literal is `"Immediate reorder required"` and the adequate-tier literal is
`"No action needed"`.  The code emits `"URGENT: Immediate reorder
required"` and `"Stock levels healthy"` (the handler's initial `'No action
needed'` is always overwritten by the final `else`). -/
theorem recommended_action_literal_mismatch :
    (computeAlerts stWidget40).map (·.recommendedAction)
      = ["URGENT: Immediate reorder required"] ∧
    (computeAlerts stWidget150).map (·.recommendedAction)
      = ["Stock levels healthy"] ∧
    ("URGENT: Immediate reorder required" ≠ "Immediate reorder required") ∧
    ("Stock levels healthy" ≠ "No action needed") := by
  rw [computeAlerts_singleton stWidget40 prodWidget rfl,
      computeAlerts_singleton stWidget150 prodWidget rfl]
  decide

/-! ## The kernel-computable arithmetic agrees with the standard operations -/

theorem qadd_eq (a b : ℚ) : qadd a b = a + b := (Rat.add_def' a b).symm

theorem qsub_eq (a b : ℚ) : qsub a b = a - b := (Rat.sub_def' a b).symm

theorem qmul_eq (a b : ℚ) : qmul a b = a * b := by
  rw [qmul, Rat.mul_def, Rat.normalize_eq_mkRat]

theorem ceilQ_eq (x : ℚ) : ceilQ x = ⌈x⌉ := by
  have hfl : ⌊-x⌋ = -x.num / (x.den : ℤ) := by
    rw [Rat.floor_def, Rat.neg_num, Rat.neg_den]
  rw [ceilQ, ← hfl, Int.floor_neg, neg_neg]

theorem truncQ_intCast (n : ℤ) : truncQ ((n : ℤ) : ℚ) = n := by
  rw [truncQ, Rat.intCast_num, Rat.intCast_den, Nat.cast_one, Int.tdiv_one]

theorem mkRat_two_eq (n : ℤ) : (mkRat n 2 : ℚ) = (n : ℚ) / 2 := by
  rw [Rat.mkRat_eq_divInt, Rat.divInt_eq_div]; norm_num

/-- C4 (confirmed).  `computeAlerts` classifies every product's total
stock against its reorder point with exactly the tabulated strict and
non-strict comparisons: `total < reorderPoint/2` is critical with reorder
quantity `ceil(2*reorderPoint - total)`; `reorderPoint/2 ≤ total <
reorderPoint` is low with `ceil(1.5*reorderPoint - total)`;
`total > 3*reorderPoint` is overstocked; otherwise adequate — and in
particular, at reorder point 100, a total of 50 is low, 49 critical,
300 adequate and 301 overstocked. -/
theorem classification_thresholds :
    (∀ total reorderPoint : ℤ, 0 ≤ reorderPoint →
      (((total : ℚ) < (reorderPoint : ℚ) / 2 →
          (classify (some ((total : ℤ) : ℚ)) reorderPoint).status = "critical" ∧
          (classify (some ((total : ℤ) : ℚ)) reorderPoint).reorderQuantity
            = ⌈(reorderPoint : ℚ) * 2 - (total : ℚ)⌉) ∧
        ((reorderPoint : ℚ) / 2 ≤ (total : ℚ) ∧ (total : ℚ) < (reorderPoint : ℚ) →
          (classify (some ((total : ℤ) : ℚ)) reorderPoint).status = "low" ∧
          (classify (some ((total : ℤ) : ℚ)) reorderPoint).reorderQuantity
            = ⌈(reorderPoint : ℚ) * (3/2) - (total : ℚ)⌉) ∧
        ((reorderPoint : ℚ) * 3 < (total : ℚ) →
          (classify (some ((total : ℤ) : ℚ)) reorderPoint).status = "overstocked" ∧
          (classify (some ((total : ℤ) : ℚ)) reorderPoint).reorderQuantity = 0) ∧
        ((reorderPoint : ℚ) ≤ (total : ℚ) ∧ (total : ℚ) ≤ (reorderPoint : ℚ) * 3 →
          (classify (some ((total : ℤ) : ℚ)) reorderPoint).status = "adequate" ∧
          (classify (some ((total : ℤ) : ℚ)) reorderPoint).reorderQuantity = 0))) ∧
    (∀ (st : State) (a : Alert), a ∈ computeAlerts st →
      a.status = (classify a.currentStock a.reorderPoint).status ∧
      a.reorderQuantity = (classify a.currentStock a.reorderPoint).reorderQuantity ∧
      a.currentStock = totalOf st.stock a.productId) ∧
    (classify (some ((50 : ℤ) : ℚ)) 100).status = "low" ∧
    (classify (some ((49 : ℤ) : ℚ)) 100).status = "critical" ∧
    (classify (some ((300 : ℤ) : ℚ)) 100).status = "adequate" ∧
    (classify (some ((301 : ℤ) : ℚ)) 100).status = "overstocked" := by
  refine ⟨?_, ?_, by decide, by decide, by decide, by decide⟩
  · intro total rp hrp
    have hrpQ : (0 : ℚ) ≤ (rp : ℚ) := by exact_mod_cast hrp
    have hmk : (mkRat rp 2 : ℚ) = (rp : ℚ) / 2 := mkRat_two_eq rp
    have hmk3 : (mkRat (rp * 3) 2 : ℚ) = (rp : ℚ) * (3/2) := by
      rw [mkRat_two_eq]; push_cast; ring
    have hq2 : ((rp * 2 : ℤ) : ℚ) = (rp : ℚ) * 2 := by push_cast; ring
    have hq3 : ((rp * 3 : ℤ) : ℚ) = (rp : ℚ) * 3 := by push_cast; ring
    simp only [classify]
    split_ifs with h1 h2 h3
    · refine ⟨fun _ => ⟨rfl, ?_⟩, fun hi => absurd h1 (by rw [hmk]; linarith [hi.1]),
        fun hi => absurd h1 (by rw [hmk]; linarith),
        fun hi => absurd h1 (by rw [hmk]; linarith [hi.1])⟩
      show ceilQ (qsub ((rp * 2 : ℤ) : ℚ) ((total : ℤ) : ℚ)) = _
      rw [ceilQ_eq, qsub_eq, hq2]
    · rw [hmk] at h1
      refine ⟨fun hi => absurd hi (by linarith), fun _ => ⟨rfl, ?_⟩,
        fun hi => absurd hi (by linarith),
        fun hi => absurd h2 (by linarith [hi.1])⟩
      show ceilQ (qsub (mkRat (rp * 3) 2) ((total : ℤ) : ℚ)) = _
      rw [ceilQ_eq, qsub_eq, hmk3]
    · rw [hmk] at h1
      rw [hq3] at h3
      exact ⟨fun hi => absurd hi (by linarith),
        fun hi => absurd hi.2 (by linarith),
        fun _ => ⟨rfl, rfl⟩,
        fun hi => absurd hi.2 (by linarith)⟩
    · rw [hmk] at h1
      rw [hq3] at h3
      exact ⟨fun hi => absurd hi (by linarith),
        fun hi => absurd hi.2 (by linarith),
        fun hi => absurd hi (by linarith),
        fun _ => ⟨rfl, rfl⟩⟩
  · intro st a ha
    rw [computeAlerts, List.mem_mergeSort] at ha
    obtain ⟨p, hp, rfl⟩ := List.mem_map.mp ha
    exact ⟨rfl, rfl, rfl⟩

/-- Witness for C4: the theorem applied at total 50, reorder point 100. -/
theorem classification_thresholds_witness :
    (classify (some ((50 : ℤ) : ℚ)) 100).status = "low" ∧
    (classify (some ((50 : ℤ) : ℚ)) 100).reorderQuantity = 100 := by
  have h := ((classification_thresholds.1 50 100 (by norm_num)).2.1 (by norm_num)).1
  have h2 := ((classification_thresholds.1 50 100 (by norm_num)).2.1 (by norm_num)).2
  refine ⟨h, ?_⟩
  rw [h2, show ((100 : ℤ) : ℚ) * (3/2) - ((50 : ℤ) : ℚ) = ((100 : ℤ) : ℚ) by norm_num,
    Int.ceil_intCast]

/-- C9 (amended, confirmed).  The recommendedAction literal attached by
`computeAlerts` is exactly determined by the tier, with the literals the
code emits: `"URGENT: Immediate reorder required"` (critical), `"Reorder
recommended"` (low), `"Consider redistribution or promotion"`
(overstocked), `"Stock levels healthy"` (adequate). -/
theorem recommended_action_literals :
    (∀ (t : JNum) (rp : ℤ),
      ((classify t rp).status = "critical" →
        (classify t rp).recommendedAction = "URGENT: Immediate reorder required") ∧
      ((classify t rp).status = "low" →
        (classify t rp).recommendedAction = "Reorder recommended") ∧
      ((classify t rp).status = "overstocked" →
        (classify t rp).recommendedAction = "Consider redistribution or promotion") ∧
      ((classify t rp).status = "adequate" →
        (classify t rp).recommendedAction = "Stock levels healthy")) ∧
    (∀ (st : State) (a : Alert), a ∈ computeAlerts st →
      a.recommendedAction = (classify a.currentStock a.reorderPoint).recommendedAction) := by
  constructor
  · intro t rp
    cases t with
    | none => simp [classify]
    | some x =>
      simp only [classify]
      split_ifs <;> simp
  · intro st a ha
    rw [computeAlerts, List.mem_mergeSort] at ha
    obtain ⟨p, hp, rfl⟩ := List.mem_map.mp ha
    rfl

/-- Witness for C9: the theorem applied at total 49, reorder point 100
(a critical classification). -/
theorem recommended_action_literals_witness :
    (classify (some ((49 : ℤ) : ℚ)) 100).recommendedAction
      = "URGENT: Immediate reorder required" :=
  (recommended_action_literals.1 (some ((49 : ℤ) : ℚ)) 100).1 (by decide)

/-- C5 (amended, confirmed).  What the handler actually validates: a
present (truthy) quantity whose JS numeric coercion is ≤ 0 — e.g. any
negative number — fails with the invalid-quantity 400 and no state change;
a quantity of exactly 0 is falsy and fails with the missing-fields 400
instead; and a positive non-integer quantity such as 2.5 is *not*
rejected — it is accepted with 201 and truncated by `parseInt` to 2. -/
theorem quantity_validation_actual :
    (∀ (st : State) (req : TransferReq) (now : String),
      jtruthy req.productId = true → jtruthy req.fromWarehouseId = true →
      jtruthy req.toWarehouseId = true → jtruthy req.quantity = true →
      jstrictEq req.fromWarehouseId req.toWarehouseId = false →
      jleZero req.quantity = true →
      postTransfer st req now = (.invalidQuantity, st)) ∧
    (∀ (st : State) (productId fromWarehouseId toWarehouseId : Option JVal)
        (notes : Option String) (now : String),
      postTransfer st ⟨productId, fromWarehouseId, toWarehouseId, some (.num 0), notes⟩ now
        = (.missingFields, st)) ∧
    (transferStatusCode (postTransfer stWidget40 reqHalf "d").1 = 201 ∧
      (createdTransfer (postTransfer stWidget40 reqHalf "d").1).map (·.quantity)
        = some (some 2)) := by
  refine ⟨?_, ?_, by decide⟩
  · intro st req now h1 h2 h3 h4 h5 h6
    simp [postTransfer, h1, h2, h3, h4, h5, h6]
  · intro st productId fromWarehouseId toWarehouseId notes now
    simp [postTransfer, jtruthy]

/-- Witness for C5: a request with quantity −3 is rejected as
invalid-quantity with the state unchanged. -/
theorem quantity_validation_actual_witness :
    postTransfer stWidget40 reqNeg "d" = (.invalidQuantity, stWidget40) :=
  quantity_validation_actual.1 stWidget40 reqNeg "d" (by decide) (by decide) (by decide)
    (by decide) (by decide) (by decide)

/-- C6 (amended, confirmed).  When all four required fields are present
and truthy and `fromWarehouseId === toWarehouseId` (same type and value),
the request always fails with the same-warehouse 400 and no state change,
regardless of the values of the other fields; with a missing or zero
quantity the request instead fails earlier with the missing-fields 400
(see `same_warehouse_zero_quantity_gives_missing_fields`). -/
theorem same_warehouse_rejected_when_fields_present
    (st : State) (req : TransferReq) (now : String)
    (h1 : jtruthy req.productId = true) (h2 : jtruthy req.fromWarehouseId = true)
    (h3 : jtruthy req.toWarehouseId = true) (h4 : jtruthy req.quantity = true)
    (heq : jstrictEq req.fromWarehouseId req.toWarehouseId = true) :
    postTransfer st req now = (.sameWarehouse, st) := by
  simp [postTransfer, h1, h2, h3, h4, heq]

/-- Witness for C6: both warehouse ids arriving as the string `"2"`. -/
theorem same_warehouse_rejected_when_fields_present_witness :
    postTransfer stWidget40
        ⟨some (.num 1), some (.str "2"), some (.str "2"), some (.num 5), none⟩ "d"
      = (.sameWarehouse, stWidget40) :=
  same_warehouse_rejected_when_fields_present stWidget40
    ⟨some (.num 1), some (.str "2"), some (.str "2"), some (.num 5), none⟩ "d"
    (by decide) (by decide) (by decide) (by decide) (by decide)


/-- In-place quantity mutation never changes any entry's
(productId, warehouseId) key. -/
theorem updateFirst_quantity_map_stockKey (p : StockEntry → Bool)
    (g : StockEntry → JNum) (l : List StockEntry) :
    (updateFirst p (fun s => { s with quantity := g s }) l).map stockKey
      = l.map stockKey := by
  induction l with
  | nil => rfl
  | cons e es ih =>
    simp only [updateFirst]
    split
    · simp [stockKey]
    · simp only [List.map_cons, ih]

/-- Appending an entry whose key the lookup did not find preserves key
uniqueness. -/
theorem nodup_append_fresh_key (l : List StockEntry) (pid tw : ℤ) (e : StockEntry)
    (hkey : stockKey e = (pid, tw))
    (hfind : l.find? (fun s => s.productId == pid && s.warehouseId == tw) = none)
    (hu : (l.map stockKey).Nodup) :
    ((l ++ [e]).map stockKey).Nodup := by
  rw [List.map_append, List.map_cons, List.map_nil]
  refine List.Nodup.append hu (List.nodup_singleton _) ?_
  intro a ha hb
  rw [List.mem_singleton] at hb
  subst hb
  obtain ⟨s, hs, hks⟩ := List.mem_map.mp ha
  have hnp := List.find?_eq_none.mp hfind s hs
  rw [hkey] at hks
  rw [stockKey, Prod.mk.injEq] at hks
  simp [hks.1, hks.2] at hnp

/-- C3 (confirmed).  If the stock collection holds at most one entry per
(productId, warehouseId) pair, it still does after any successful POST
transfers request: the handler mutates the existing destination entry in
place when one exists, and appends a fresh entry only when the lookup for
that pair found nothing. -/
theorem transfer_preserves_stock_pair_uniqueness
    (st : State) (req : TransferReq) (now : String) (t : Transfer) (st' : State)
    (hu : (st.stock.map stockKey).Nodup)
    (h : postTransfer st req now = (.created t, st')) :
    (st'.stock.map stockKey).Nodup := by
  simp only [postTransfer] at h
  repeat' split at h
  any_goals cases h
  -- destination entry exists: both in-place updates leave every key unchanged
  · dsimp only
    rw [updateFirst_quantity_map_stockKey, updateFirst_quantity_map_stockKey]
    exact hu
  -- no destination entry: a fresh entry with the unseen key is appended
  · rename_i hfind
    dsimp only
    refine nodup_append_fresh_key _ _ _ _ rfl hfind ?_
    rw [updateFirst_quantity_map_stockKey]
    exact hu

/-- Witness for C3: a concrete successful transfer out of `stWidget40`
keeps the stock keys unique. -/
theorem transfer_preserves_stock_pair_uniqueness_witness :
    ((postTransfer stWidget40 reqTen "d").2.stock.map stockKey).Nodup := by
  have h : postTransfer stWidget40 reqTen "d" =
      (.created ⟨1, 1, 1, 2, some 10, "", "d", "completed"⟩,
       { stWidget40 with
          stock := [⟨1, 1, 1, some 30⟩, ⟨2, 1, 2, some 10⟩],
          transfers := [⟨1, 1, 1, 2, some 10, "", "d", "completed"⟩] }) := by decide
  have hres := transfer_preserves_stock_pair_uniqueness stWidget40 reqTen "d"
    ⟨1, 1, 1, 2, some 10, "", "d", "completed"⟩
    { stWidget40 with
        stock := [⟨1, 1, 1, some 30⟩, ⟨2, 1, 2, some 10⟩],
        transfers := [⟨1, 1, 1, 2, some 10, "", "d", "completed"⟩] }
    (by decide) h
  rw [h]
  exact hres

/-- C10 (confirmed).  The alert list is sorted ascending by severity
rank (critical 0, high 1, medium 2, low 3), and alerts of equal severity
keep the relative order of their products in the products collection
(`Array.prototype.sort` is stable): filtering the output by any severity
value gives exactly the input-order alerts of that severity. -/
theorem alerts_sorted_by_severity_and_stable (st : State) :
    (computeAlerts st).Pairwise
      (fun a b => severityOrder a.severity ≤ severityOrder b.severity) ∧
    ∀ sev : String,
      (computeAlerts st).filter (fun a => a.severity == sev)
        = (st.products.map (mkAlert st)).filter (fun a => a.severity == sev) := by
  have htrans : ∀ a b c : Alert,
      decide (severityOrder a.severity ≤ severityOrder b.severity) = true →
      decide (severityOrder b.severity ≤ severityOrder c.severity) = true →
      decide (severityOrder a.severity ≤ severityOrder c.severity) = true := by
    intro a b c hab hbc
    rw [decide_eq_true_eq] at hab hbc ⊢
    omega
  have htotal : ∀ a b : Alert,
      (decide (severityOrder a.severity ≤ severityOrder b.severity) ||
       decide (severityOrder b.severity ≤ severityOrder a.severity)) = true := by
    intro a b
    rcases Int.le_total (severityOrder a.severity) (severityOrder b.severity) with h | h
    · simp [h]
    · simp [h]
  constructor
  · rw [computeAlerts]
    exact (List.sorted_mergeSort htrans htotal (st.products.map (mkAlert st))).imp
      (fun h => of_decide_eq_true h)
  · intro sev
    have hsub : ((st.products.map (mkAlert st)).filter (fun a => a.severity == sev)).Sublist
        (computeAlerts st) := by
      rw [computeAlerts]
      refine List.sublist_mergeSort htrans htotal ?_ (List.filter_sublist _)
      refine List.pairwise_of_forall_mem_list ?_
      intro a ha b hb
      rw [List.mem_filter] at ha hb
      show decide (severityOrder a.severity ≤ severityOrder b.severity) = true
      rw [decide_eq_true_eq, eq_of_beq ha.2, eq_of_beq hb.2]
    have hperm : (computeAlerts st).Perm (st.products.map (mkAlert st)) :=
      List.mergeSort_perm _ _
    have hlen : ((computeAlerts st).filter (fun a => a.severity == sev)).length
        = ((st.products.map (mkAlert st)).filter (fun a => a.severity == sev)).length :=
      (hperm.filter _).length_eq
    have hsub2 : ((st.products.map (mkAlert st)).filter (fun a => a.severity == sev)).Sublist
        ((computeAlerts st).filter (fun a => a.severity == sev)) := by
      have hff := hsub.filter (fun a => a.severity == sev)
      rwa [List.filter_filter, show (fun a : Alert => (a.severity == sev) && (a.severity == sev))
        = (fun a : Alert => a.severity == sev) from funext (fun a => Bool.and_self _)] at hff
    exact (hsub2.eq_of_length hlen.symm).symm

/-- After the acknowledge upsert (replace the first record matching `q`, or
append when none matches), the first record matching `q` is exactly the new
record. -/
theorem find?_set_findIdx? (l : List AlertAck) (r : AlertAck) (q : AlertAck → Bool)
    (hr : q r = true) :
    (match l.findIdx? q with
     | some i => l.set i r
     | none => l ++ [r]).find? q = some r := by
  induction l with
  | nil => simp [hr]
  | cons a as ih =>
    by_cases h : q a
    · simp [List.findIdx?_cons, h, hr]
    · rw [List.findIdx?_cons, if_neg (by simp [h]), List.findIdx?_succ]
      cases hfi : as.findIdx? q with
      | none =>
        rw [hfi] at ih
        simpa [List.find?_cons_of_neg _ h] using ih
      | some i =>
        rw [hfi] at ih
        simpa [List.find?_cons_of_neg _ h] using ih

/-- After the unacknowledge filter removes every record matching `q`, no
record matching `q` can be found. -/
theorem find?_filter_not_pred (l : List AlertAck) (q : AlertAck → Bool) :
    (l.filter (fun a => !(q a))).find? q = none := by
  rw [List.find?_eq_none]
  intro x hx
  rw [List.mem_filter] at hx
  simpa using hx.2

/-- The stored author of an acknowledgment (`acknowledgedBy || 'System'`)
is never the empty string. -/
theorem joStrOr_System_ne_empty (author : Option String) :
    joStrOr author "System" ≠ "" := by
  cases author with
  | none => simp [joStrOr]
  | some s =>
    simp only [joStrOr]
    split
    · simp
    · simpa using by assumption

/-- C8 (confirmed).  For a product in the products collection (with the
truthy id and non-empty timestamp the real handlers always use),
acknowledging and then computing alerts yields that product's alert with
`acknowledged = true` and the stored timestamp and author attached;
unacknowledging afterwards and recomputing yields `acknowledged = false`
with null timestamp and author. -/
theorem acknowledge_unacknowledge_roundtrip
    (st : State) (p : Product) (author : Option String) (now : String)
    (hp : p ∈ st.products) (hpid : p.id ≠ 0) (hnow : now ≠ "") :
    (mkAlert (postAlert st ⟨some (.num (p.id : ℚ)), author⟩ now).2 p
        ∈ computeAlerts (postAlert st ⟨some (.num (p.id : ℚ)), author⟩ now).2) ∧
    (mkAlert (postAlert st ⟨some (.num (p.id : ℚ)), author⟩ now).2 p).acknowledged
        = true ∧
    (mkAlert (postAlert st ⟨some (.num (p.id : ℚ)), author⟩ now).2 p).acknowledgedAt
        = some now ∧
    (mkAlert (postAlert st ⟨some (.num (p.id : ℚ)), author⟩ now).2 p).acknowledgedBy
        = some (joStrOr author "System") ∧
    (mkAlert (deleteAlert (postAlert st ⟨some (.num (p.id : ℚ)), author⟩ now).2
          (some (.num (p.id : ℚ)))).2 p
        ∈ computeAlerts (deleteAlert (postAlert st ⟨some (.num (p.id : ℚ)), author⟩ now).2
          (some (.num (p.id : ℚ)))).2) ∧
    (mkAlert (deleteAlert (postAlert st ⟨some (.num (p.id : ℚ)), author⟩ now).2
          (some (.num (p.id : ℚ)))).2 p).acknowledged = false ∧
    (mkAlert (deleteAlert (postAlert st ⟨some (.num (p.id : ℚ)), author⟩ now).2
          (some (.num (p.id : ℚ)))).2 p).acknowledgedAt = none ∧
    (mkAlert (deleteAlert (postAlert st ⟨some (.num (p.id : ℚ)), author⟩ now).2
          (some (.num (p.id : ℚ)))).2 p).acknowledgedBy = none := by
  have htr : jtruthy (some (.num (p.id : ℚ))) = true := by
    simp only [jtruthy, bne_iff_ne, ne_eq, Int.cast_eq_zero]
    exact hpid
  have hparse : jparseInt (some (.num (p.id : ℚ))) = some p.id := by
    simp only [jparseInt, truncQ_intCast]
  have halerts : (postAlert st ⟨some (.num (p.id : ℚ)), author⟩ now).2.alerts =
      (match st.alerts.findIdx? (fun a => oIntEq a.productId (some p.id)) with
       | some i => st.alerts.set i ⟨some p.id, true, now, joStrOr author "System"⟩
       | none => st.alerts ++ [⟨some p.id, true, now, joStrOr author "System"⟩]) := by
    simp only [postAlert, htr, hparse, Bool.not_true]
    rfl
  have hprods : (postAlert st ⟨some (.num (p.id : ℚ)), author⟩ now).2.products
      = st.products := by
    simp only [postAlert, htr, Bool.not_true]
    rfl
  have hfound : (postAlert st ⟨some (.num (p.id : ℚ)), author⟩ now).2.alerts.find?
        (fun a => oIntEq a.productId (some p.id))
      = some ⟨some p.id, true, now, joStrOr author "System"⟩ := by
    rw [halerts]
    exact find?_set_findIdx? st.alerts _ _ (by simp [oIntEq])
  have halerts2 : (deleteAlert (postAlert st ⟨some (.num (p.id : ℚ)), author⟩ now).2
        (some (.num (p.id : ℚ)))).2.alerts
      = (postAlert st ⟨some (.num (p.id : ℚ)), author⟩ now).2.alerts.filter
          (fun a => !(oIntEq a.productId (some p.id))) := by
    simp only [deleteAlert, htr, hparse, Bool.not_true]
    rfl
  have hprods2 : (deleteAlert (postAlert st ⟨some (.num (p.id : ℚ)), author⟩ now).2
        (some (.num (p.id : ℚ)))).2.products
      = (postAlert st ⟨some (.num (p.id : ℚ)), author⟩ now).2.products := by
    simp only [deleteAlert, htr, Bool.not_true]
    rfl
  have hnone : (deleteAlert (postAlert st ⟨some (.num (p.id : ℚ)), author⟩ now).2
        (some (.num (p.id : ℚ)))).2.alerts.find?
        (fun a => oIntEq a.productId (some p.id)) = none := by
    rw [halerts2]
    exact find?_filter_not_pred _ _
  refine ⟨?_, ?_, ?_, ?_, ?_, ?_, ?_, ?_⟩
  · rw [computeAlerts, List.mem_mergeSort]
    exact List.mem_map_of_mem _ (hprods ▸ hp)
  · simp only [mkAlert, hfound]
    rfl
  · simp only [mkAlert, hfound]
    rw [jstrOrNull, if_neg hnow]
  · simp only [mkAlert, hfound]
    rw [jstrOrNull, if_neg (joStrOr_System_ne_empty author)]
  · rw [computeAlerts, List.mem_mergeSort]
    exact List.mem_map_of_mem _ ((hprods2.trans hprods) ▸ hp)
  · simp only [mkAlert, hnone]
    rfl
  · simp only [mkAlert, hnone]
  · simp only [mkAlert, hnone]

/-- Witness for C8: the roundtrip theorem applied to `stWidget40`,
product 1, author "Ann" and timestamp "t1". -/
theorem acknowledge_unacknowledge_roundtrip_witness :
    (mkAlert (postAlert stWidget40
          ⟨some (.num (prodWidget.id : ℚ)), some "Ann"⟩ "t1").2 prodWidget).acknowledged
        = true ∧
    (mkAlert (deleteAlert (postAlert stWidget40
            ⟨some (.num (prodWidget.id : ℚ)), some "Ann"⟩ "t1").2
          (some (.num (prodWidget.id : ℚ)))).2 prodWidget).acknowledged = false := by
  have h := acknowledge_unacknowledge_roundtrip stWidget40 prodWidget (some "Ann") "t1"
    (by decide) (by decide) (by decide)
  exact ⟨h.2.1, h.2.2.2.2.2.1⟩
